import Mathlib

/-
Verification development for a multi-provider LLM HTTP gateway
(Python: Azure Functions dispatcher + provider adapters + config-driven
model registry + user-credential store over Azure Table Storage).

The Python modules are shallowly embedded as pure Lean functions:
  * services/provider_factory.py  -> get_provider over an explicit FactoryState
  * services/openai_provider.py, azure_openai_provider.py,
    anthropic_provider.py, bedrock_provider.py -> payload builders /
    construction checks (network calls are abstracted as oracles)
  * services/config_loader.py     -> explicit cache state passing
  * services/user_service.py      -> association-list table state
  * function_app.py               -> request handlers returning a response,
    the updated state, and a trace of factory/adapter invocations.

String operations (strip, lower, startswith) are modelled by the structural,
kernel-reducible functions pyStrip, pyLower and pyStartsWith over the
character list; all keys involved are ASCII, where these agree with the
Python methods. Python truthiness checks on optional strings (`if not x`)
are modelled by `truthy`, which is false exactly on None and the empty
string.
-/

/-- Python truthiness of an optional string: `None` and `""` are falsy. -/
def truthy : Option String → Bool
  | none => false
  | some s => !(s == "")

/-- ASCII lowercasing of one character, as Python str.lower acts on ASCII. -/
def lowerChar (c : Char) : Char :=
  if 65 ≤ c.toNat ∧ c.toNat ≤ 90 then Char.ofNat (c.toNat + 32) else c

/-- Python str.lower on the ASCII range (structural, kernel-reducible). -/
def pyLower (s : String) : String := ⟨s.data.map lowerChar⟩

/-- Whitespace characters removed by Python str.strip (ASCII subset). -/
def isSpaceChar (c : Char) : Bool :=
  c == ' ' || c == '\t' || c == '\n' || c == '\r'

/-- Python str.strip (structural, kernel-reducible). -/
def pyStrip (s : String) : String :=
  ⟨((s.data.dropWhile isSpaceChar).reverse.dropWhile isSpaceChar).reverse⟩

/-- The factory's key normalization `provider_name.strip().lower()`. -/
def normalizeName (s : String) : String := pyLower (pyStrip s)

/-- Character-list version of Python str.startswith. -/
def startsWithChars : List Char → List Char → Bool
  | _, [] => true
  | [], _ :: _ => false
  | c :: cs, p :: ps => c == p && startsWithChars cs ps

/-- Python str.startswith (structural, kernel-reducible). -/
def pyStartsWith (s pre : String) : Bool := startsWithChars s.data pre.data

/-- Python `x or default` on an optional string (used for media-type defaults):
yields `default` when `x` is `None` or `""`. -/
def orDefault (x : Option String) (d : String) : String :=
  match x with
  | none => d
  | some s => if s = "" then d else s

/-- Association-list lookup keyed by strings; models Python dict lookup for the
small, order-preserving dicts in the source (provider map, caches, tables). -/
def alookup {β : Type} : List (String × β) → String → Option β
  | [], _ => none
  | (k1, v) :: rest, k => if k1 = k then some v else alookup rest k

/-- Association-list value replacement at a key, keeping list order; models
Azure `update_entity(mode="replace")` on an existing row. -/
def areplace {β : Type} : List (String × β) → String → β → List (String × β)
  | [], _, _ => []
  | (k1, v1) :: rest, k, v =>
      if k1 = k then (k, v) :: areplace rest k v
      else (k1, v1) :: areplace rest k v

-- ---------------------------------------------------------------------------
-- services/provider_factory.py and adapter construction (__init__ methods)
-- ---------------------------------------------------------------------------

/-- The four adapter classes selectable by the provider factory. -/
inductive ProviderKind where
  | openai
  | azureOpenai
  | anthropic
  | awsBedrock
deriving DecidableEq, Repr

/-- A constructed adapter instance. `instId` is a fresh construction counter,
standing for Python object identity: two instances are "the identical object"
exactly when their `instId`s coincide. -/
structure ProviderInstance where
  kind : ProviderKind
  instId : Nat
deriving DecidableEq, Repr

/-- Python exceptions relevant to the embedded modules. -/
inductive PyError where
  | valueError (msg : String)
  | notFound
  | alreadyExists
  | otherError (msg : String)
deriving DecidableEq, Repr

/-- Process environment slots read by the adapter constructors. -/
structure Env where
  openaiKey : Option String
  azureOpenaiKey : Option String
  azureOpenaiEndpoint : Option String
  anthropicKey : Option String
deriving Repr

/-- Adapter `__init__`: fails fast with the source's ValueError message when a
required credential is absent or empty; the Bedrock client constructor never
checks its credentials. `freshId` is the identity of the new instance. -/
def constructProvider (env : Env) (k : ProviderKind) (freshId : Nat) :
    Except PyError ProviderInstance :=
  match k with
  | .openai =>
      if truthy env.openaiKey then .ok ⟨.openai, freshId⟩
      else .error (.valueError "OPENAI_API_KEY environment variable is not set.")
  | .azureOpenai =>
      if truthy env.azureOpenaiKey then
        if truthy env.azureOpenaiEndpoint then .ok ⟨.azureOpenai, freshId⟩
        else .error (.valueError "AZURE_OPENAI_ENDPOINT environment variable is not set.")
      else .error (.valueError "AZURE_OPENAI_API_KEY environment variable is not set.")
  | .anthropic =>
      if truthy env.anthropicKey then .ok ⟨.anthropic, freshId⟩
      else .error (.valueError "ANTHROPIC_API_KEY environment variable is not set.")
  | .awsBedrock => .ok ⟨.awsBedrock, freshId⟩

/-- The factory's `provider_map` in source (insertion) order. -/
def providerMap : List (String × ProviderKind) :=
  [("openai", .openai), ("azure openai", .azureOpenai),
   ("anthropic", .anthropic), ("aws bedrock", .awsBedrock)]

/-- Module-level `_provider_cache` plus a fresh-identity counter. -/
structure FactoryState where
  cache : List (String × ProviderInstance)
  nextId : Nat
deriving Repr

/-- The error message for an unrecognized provider name: embeds
`f"Unknown provider ... {', '.join(provider_map.keys())}"`. -/
def unknownProviderMsg (name : String) : String :=
  "Unknown provider '" ++ name ++ "'. Supported providers: " ++
    String.intercalate ", " (providerMap.map Prod.fst)

/-- `get_provider` from services/provider_factory.py: normalizes the name by
trim+lowercase, returns the cached instance on a hit, otherwise resolves the
class from `providerMap`, constructs it (which may fail) and caches it. -/
def get_provider (env : Env) (st : FactoryState) (name : String) :
    Except PyError ProviderInstance × FactoryState :=
  match alookup st.cache (normalizeName name) with
  | some inst => (.ok inst, st)
  | none =>
      match alookup providerMap (normalizeName name) with
      | none => (.error (.valueError (unknownProviderMsg name)), st)
      | some k =>
          match constructProvider env k st.nextId with
          | .error e => (.error e, st)
          | .ok inst =>
              (.ok inst, ⟨st.cache ++ [(normalizeName name, inst)], st.nextId + 1⟩)

-- ---------------------------------------------------------------------------
-- Vendor adapters: outgoing payload construction for vision calls
-- (services/openai_provider.py, azure_openai_provider.py,
--  anthropic_provider.py, bedrock_provider.py)
-- ---------------------------------------------------------------------------

/-- One part of an OpenAI-style user message content list. -/
inductive OpenAIContentPart where
  | text (s : String)
  | imageUrl (url : String)
deriving DecidableEq, Repr

/-- The outgoing OpenAI-style chat.completions.create request for a vision
call (the fields the adapter sets). -/
structure OpenAIChatRequest where
  model : String
  parts : List OpenAIContentPart
  temperature : ℚ
deriving DecidableEq, Repr

/-- `OpenAIProvider.generate_with_image`, up to the vendor call: builds the
outgoing request. `media_type = image_media_type or "image/png"`; content
starting with "http" is passed as a URL, anything else is wrapped as the data
URI `data:<mediaType>;base64,<content>`. -/
def OpenAIProvider.generate_with_image (prompt image_content model_name : String)
    (temperature : ℚ) (image_media_type : Option String) : OpenAIChatRequest :=
  let media_type := orDefault image_media_type "image/png"
  let image_url :=
    if pyStartsWith image_content "http" then image_content
    else "data:" ++ media_type ++ ";base64," ++ image_content
  { model := model_name
    parts := [.text prompt, .imageUrl image_url]
    temperature := temperature }

/-- `AzureOpenAIProvider.generate_with_image`: identical request shaping to the
OpenAI adapter (the Azure variant differs only in client construction). -/
def AzureOpenAIProvider.generate_with_image (prompt image_content model_name : String)
    (temperature : ℚ) (image_media_type : Option String) : OpenAIChatRequest :=
  let media_type := orDefault image_media_type "image/png"
  let image_url :=
    if pyStartsWith image_content "http" then image_content
    else "data:" ++ media_type ++ ";base64," ++ image_content
  { model := model_name
    parts := [.text prompt, .imageUrl image_url]
    temperature := temperature }

/-- Image source object of an Anthropic image content block. -/
inductive AnthropicImageSource where
  | url (u : String)
  | base64Src (media_type data : String)
deriving DecidableEq, Repr

/-- One content block of an Anthropic user message. -/
inductive AnthropicBlock where
  | image (source : AnthropicImageSource)
  | text (s : String)
deriving DecidableEq, Repr

/-- The outgoing Anthropic messages.create request for a vision call. -/
structure AnthropicMessageRequest where
  model : String
  maxTokens : Nat
  temperature : ℚ
  blocks : List AnthropicBlock
deriving DecidableEq, Repr

/-- `AnthropicProvider.generate_with_image`, up to the vendor call: content
starting with "http" becomes a `{type: url}` source, anything else a
`{type: base64, media_type, data}` source; the image block precedes the text
block and max_tokens is fixed at 4096. -/
def AnthropicProvider.generate_with_image (prompt image_content model_name : String)
    (temperature : ℚ) (image_media_type : Option String) : AnthropicMessageRequest :=
  let media_type := orDefault image_media_type "image/png"
  let image_source :=
    if pyStartsWith image_content "http" then AnthropicImageSource.url image_content
    else AnthropicImageSource.base64Src media_type image_content
  { model := model_name
    maxTokens := 4096
    temperature := temperature
    blocks := [.image image_source, .text prompt] }

/-- One content block of a Bedrock Converse user message. -/
inductive ConverseBlock where
  | image (format : String) (bytes : List Nat)
  | text (s : String)
deriving DecidableEq, Repr

/-- The outgoing Bedrock Converse request for a vision call. -/
structure ConverseRequest where
  modelId : String
  blocks : List ConverseBlock
  temperature : ℚ
  maxTokens : Nat
deriving DecidableEq, Repr

/-- Outcome of `BedrockProvider.generate_with_image` up to the vendor call:
the adapter either rejects the model family with a ValueError, fails while
base64-decoding the image, or issues a Converse call with the built payload. -/
inductive BedrockVisionOutcome where
  | metaRejected (msg : String)
  | decodeFailed
  | converseCall (req : ConverseRequest)
deriving DecidableEq, Repr

/-- `BedrockProvider._is_meta_model`: identifier prefixed with "meta.". -/
def BedrockProvider._is_meta_model (model_name : String) : Bool :=
  pyStartsWith model_name "meta."

/-- The `format_map` MIME-to-format translation with its "png" fallback. -/
def bedrockFormatOf (media_type : String) : String :=
  (alookup [("image/png", "png"), ("image/jpeg", "jpeg"),
            ("image/gif", "gif"), ("image/webp", "webp")] media_type).getD "png"

/-- `BedrockProvider.generate_with_image`, up to the vendor call. The Meta
family check happens first, before decoding and before any Converse call;
base64 decoding (Python `base64.b64decode`) is abstracted as a parameter
`b64decode` returning the decoded bytes or `none` on a binascii error. -/
def BedrockProvider.generate_with_image (b64decode : String → Option (List Nat))
    (prompt image_content model_name : String) (temperature : ℚ)
    (image_media_type : Option String) : BedrockVisionOutcome :=
  if BedrockProvider._is_meta_model model_name then
    .metaRejected ("Model '" ++ model_name ++ "' does not support image/vision input.")
  else
    let media_type := orDefault image_media_type "image/png"
    let image_format := bedrockFormatOf media_type
    match b64decode image_content with
    | none => .decodeFailed
    | some image_bytes =>
        .converseCall
          { modelId := model_name
            blocks := [.image image_format image_bytes, .text prompt]
            temperature := temperature
            maxTokens := 4096 }

-- ---------------------------------------------------------------------------
-- services/config_loader.py: model registry with explicit cache state
-- ---------------------------------------------------------------------------

/-- A model descriptor from models_config.json. Fields accessed in the source
with dict.get (modelId, temperature, supportsVision) are optional; fields
indexed directly (modelName, providerName) are required. -/
structure ModelConfig where
  modelId : Option String
  modelName : String
  providerName : String
  temperature : Option ℚ
  supportsVision : Option Bool
deriving DecidableEq, Repr

/-- The userStorage section of the configuration file. -/
structure UserStorageConfig where
  tableName : Option String
  partitionKey : Option String
  connectionStringEnvVar : Option String
deriving DecidableEq, Repr

/-- The parsed configuration document (`models` and `userStorage` keys are
both read with dict.get and so may be absent). -/
structure FullConfig where
  models : Option (List ModelConfig)
  userStorage : Option UserStorageConfig
deriving Repr

/-- The configuration file on disk: missing, or present with raw text. -/
inductive ConfigSource where
  | missing
  | content (raw : String)

/-- Exceptions escaping `_load_full_config`: `FileNotFoundError` from `open`,
or `json.JSONDecodeError` from `json.load`. -/
inductive LoadError where
  | fileNotFound
  | jsonDecodeError
deriving DecidableEq, Repr

/-- The module-level caches `_full_config_cache` and `_models_cache`. -/
structure LoaderState where
  fullConfigCache : Option FullConfig
  modelsCache : Option (List ModelConfig)

/-- `_load_full_config`: returns the cache when populated, otherwise opens the
file (FileNotFoundError when missing) and parses it (JSONDecodeError when
malformed); `parse` abstracts `json.load`. Errors propagate unwrapped. -/
def load_full_config (parse : String → Option FullConfig) (src : ConfigSource)
    (st : LoaderState) : Except LoadError FullConfig × LoaderState :=
  match st.fullConfigCache with
  | some c => (.ok c, st)
  | none =>
      match src with
      | .missing => (.error .fileNotFound, st)
      | .content raw =>
          match parse raw with
          | none => (.error .jsonDecodeError, st)
          | some cfg => (.ok cfg, { st with fullConfigCache := some cfg })

/-- `_load_models`: returns the models cache when populated, otherwise loads
the full configuration and takes `config.get("models", [])`. -/
def load_models (parse : String → Option FullConfig) (src : ConfigSource)
    (st : LoaderState) : Except LoadError (List ModelConfig) × LoaderState :=
  match st.modelsCache with
  | some ms => (.ok ms, st)
  | none =>
      match load_full_config parse src st with
      | (.error e, st1) => (.error e, st1)
      | (.ok cfg, st1) =>
          let ms := cfg.models.getD []
          (.ok ms, { st1 with modelsCache := some ms })

/-- `get_all_models` from services/config_loader.py. -/
def config_loader.get_all_models (parse : String → Option FullConfig)
    (src : ConfigSource) (st : LoaderState) :
    Except LoadError (List ModelConfig) × LoaderState :=
  load_models parse src st

/-- The linear registry lookup loop inside `get_model_by_id`, over an already
loaded model list: first model whose `.get("modelId")` equals the argument. -/
def find_model_by_id : List ModelConfig → String → Option ModelConfig
  | [], _ => none
  | m :: rest, model_id =>
      if m.modelId = some model_id then some m else find_model_by_id rest model_id

/-- `get_model_by_id` from services/config_loader.py: loads the model list,
then scans it for the first matching modelId, returning `none` when absent. -/
def config_loader.get_model_by_id (parse : String → Option FullConfig)
    (src : ConfigSource) (st : LoaderState) (model_id : String) :
    Except LoadError (Option ModelConfig) × LoaderState :=
  match load_models parse src st with
  | (.error e, st1) => (.error e, st1)
  | (.ok ms, st1) => (.ok (find_model_by_id ms model_id), st1)

-- ---------------------------------------------------------------------------
-- function_app.py: HTTP dispatcher for /api/chat and /api/chat/vision
-- ---------------------------------------------------------------------------

/-- JSON body of a response: a successful generation, a user object, a plain
message, or an `{"error": ...}` object. -/
inductive RespBody where
  | genSuccess (response modelId providerName : String)
  | userBody (username password : String) (isAdmin : Bool)
  | message (msg : String)
  | failure (error : String)
deriving DecidableEq, Repr

/-- An HTTP response as built by `_json_response`. -/
structure HttpResponse where
  status : Nat
  body : RespBody
deriving DecidableEq, Repr

/-- Observable invocations made by a handler while serving one request. -/
inductive Event where
  | factoryCall
  | adapterCall
deriving DecidableEq, Repr

/-- Parsed JSON body of POST /api/chat (fields read with dict.get). -/
structure ChatBody where
  prompt : Option String
  modelId : Option String

/-- Parsed JSON body of POST /api/chat/vision. -/
structure VisionBody where
  prompt : Option String
  imageContent : Option String
  modelId : Option String
  imageMediaType : Option String

/-- The `chat` handler of function_app.py over an already loaded registry.
`req = none` models a body that fails JSON parsing. The vendor text call is
abstracted as the oracle `genText`; the handler catches ValueError as 400 and
any other exception as 500, exactly as the source's except clauses do. -/
def chat (registry : List ModelConfig) (env : Env) (st : FactoryState)
    (genText : ProviderInstance → String → ℚ → Except PyError String)
    (req : Option ChatBody) : HttpResponse × FactoryState × List Event :=
  match req with
  | none => (⟨400, .failure "Request body must be valid JSON."⟩, st, [])
  | some data =>
      if !truthy data.prompt then
        (⟨400, .failure "Field 'prompt' is required."⟩, st, [])
      else if !truthy data.modelId then
        (⟨400, .failure "Field 'modelId' is required."⟩, st, [])
      else
        let model_id := data.modelId.getD ""
        match find_model_by_id registry model_id with
        | none => (⟨404, .failure ("Model '" ++ model_id ++ "' not found.")⟩, st, [])
        | some model_config =>
            match get_provider env st model_config.providerName with
            | (.error (.valueError m), st1) =>
                (⟨400, .failure m⟩, st1, [.factoryCall])
            | (.error (.notFound), st1) =>
                (⟨500, .failure "Generation failed: not found"⟩, st1, [.factoryCall])
            | (.error (.alreadyExists), st1) =>
                (⟨500, .failure "Generation failed: already exists"⟩, st1, [.factoryCall])
            | (.error (.otherError m), st1) =>
                (⟨500, .failure ("Generation failed: " ++ m)⟩, st1, [.factoryCall])
            | (.ok provider, st1) =>
                match genText provider model_config.modelName
                    (model_config.temperature.getD ((7 : ℚ)/10)) with
                | .ok response_text =>
                    (⟨200, .genSuccess response_text model_id model_config.providerName⟩,
                     st1, [.factoryCall, .adapterCall])
                | .error (.valueError m) =>
                    (⟨400, .failure m⟩, st1, [.factoryCall, .adapterCall])
                | .error (.notFound) =>
                    (⟨500, .failure "Generation failed: not found"⟩, st1,
                     [.factoryCall, .adapterCall])
                | .error (.alreadyExists) =>
                    (⟨500, .failure "Generation failed: already exists"⟩, st1,
                     [.factoryCall, .adapterCall])
                | .error (.otherError m) =>
                    (⟨500, .failure ("Generation failed: " ++ m)⟩, st1,
                     [.factoryCall, .adapterCall])

/-- The `chat_vision` handler of function_app.py over an already loaded
registry. Field checks come first, then the 404 lookup, then the
supportsVision capability check (`model_config.get("supportsVision", False)`)
BEFORE the try block that consults the factory and the adapter; the vendor
vision call is abstracted as the oracle `genVision`. -/
def chat_vision (registry : List ModelConfig) (env : Env) (st : FactoryState)
    (genVision : ProviderInstance → String → String → String → ℚ → String →
      Except PyError String)
    (req : Option VisionBody) : HttpResponse × FactoryState × List Event :=
  match req with
  | none => (⟨400, .failure "Request body must be valid JSON."⟩, st, [])
  | some data =>
      let image_media_type := data.imageMediaType.getD "image/png"
      if !truthy data.prompt then
        (⟨400, .failure "Field 'prompt' is required."⟩, st, [])
      else if !truthy data.imageContent then
        (⟨400, .failure "Field 'imageContent' is required."⟩, st, [])
      else if !truthy data.modelId then
        (⟨400, .failure "Field 'modelId' is required."⟩, st, [])
      else
        let model_id := data.modelId.getD ""
        match find_model_by_id registry model_id with
        | none => (⟨404, .failure ("Model '" ++ model_id ++ "' not found.")⟩, st, [])
        | some model_config =>
            if !(model_config.supportsVision.getD false) then
              (⟨400, .failure ("Model '" ++ model_id ++
                 "' does not support vision/image input.")⟩, st, [])
            else
              match get_provider env st model_config.providerName with
              | (.error (.valueError m), st1) =>
                  (⟨400, .failure m⟩, st1, [.factoryCall])
              | (.error (.notFound), st1) =>
                  (⟨500, .failure "Generation failed: not found"⟩, st1, [.factoryCall])
              | (.error (.alreadyExists), st1) =>
                  (⟨500, .failure "Generation failed: already exists"⟩, st1,
                   [.factoryCall])
              | (.error (.otherError m), st1) =>
                  (⟨500, .failure ("Generation failed: " ++ m)⟩, st1, [.factoryCall])
              | (.ok provider, st1) =>
                  match genVision provider (data.prompt.getD "")
                      (data.imageContent.getD "") model_config.modelName
                      (model_config.temperature.getD ((7 : ℚ)/10))
                      image_media_type with
                  | .ok response_text =>
                      (⟨200, .genSuccess response_text model_id
                         model_config.providerName⟩, st1,
                       [.factoryCall, .adapterCall])
                  | .error (.valueError m) =>
                      (⟨400, .failure m⟩, st1, [.factoryCall, .adapterCall])
                  | .error (.notFound) =>
                      (⟨500, .failure "Generation failed: not found"⟩, st1,
                       [.factoryCall, .adapterCall])
                  | .error (.alreadyExists) =>
                      (⟨500, .failure "Generation failed: already exists"⟩, st1,
                       [.factoryCall, .adapterCall])
                  | .error (.otherError m) =>
                      (⟨500, .failure ("Generation failed: " ++ m)⟩, st1,
                       [.factoryCall, .adapterCall])

-- ---------------------------------------------------------------------------
-- services/user_service.py: user store over Azure Table Storage
-- ---------------------------------------------------------------------------

/-- A stored table entity for a user (RowKey is the list key; all users share
one partition key, so the table is keyed by username alone). -/
structure UserEntity where
  password : String
  isAdmin : Bool
deriving DecidableEq, Repr

/-- The user dictionary returned to callers by `_entity_to_user`. -/
structure UserRecord where
  username : String
  password : String
  isAdmin : Bool
deriving DecidableEq, Repr

/-- The users table: RowKey-indexed entities. -/
def UserTable := List (String × UserEntity)

/-- `_entity_to_user`: strips storage metadata, keeps the user fields. -/
def entity_to_user (username : String) (e : UserEntity) : UserRecord :=
  { username := username, password := e.password, isAdmin := e.isAdmin }

/-- The infrastructure error of `_get_table_client` when the connection-string
environment variable is unset or empty. -/
def connStringMsg : String :=
  "Environment variable 'AZURE_STORAGE_CONNECTION_STRING' is not set. " ++
    "Please configure the Azure Storage connection string."

/-- `validate_user` from services/user_service.py: client initialization first
(ValueError when the connection string is absent — the only raising path),
then `get_entity` (a miss yields None), then exact string comparison of the
stored password (a mismatch yields None). `conn` is the resolved connection
string from the environment. -/
def validate_user (conn : Option String) (tbl : UserTable)
    (username password : String) : Except PyError (Option UserRecord) :=
  if !truthy conn then .error (.valueError connStringMsg)
  else
    match alookup tbl username with
    | none => .ok none
    | some entity =>
        if entity.password = password then .ok (some (entity_to_user username entity))
        else .ok none

/-- `update_user` from services/user_service.py: fetches the existing entity
(ResourceNotFoundError propagates when absent, leaving the table untouched),
overwrites only the fields that are not None, and replace-writes the entity
under its unchanged RowKey. Returns the result paired with the table after
the call. -/
def update_user (conn : Option String) (tbl : UserTable) (username : String)
    (password : Option String) (is_admin : Option Bool) :
    Except PyError UserRecord × UserTable :=
  if !truthy conn then (.error (.valueError connStringMsg), tbl)
  else
    match alookup tbl username with
    | none => (.error .notFound, tbl)
    | some existing =>
        let e1 := match password with
          | some pw => { existing with password := pw }
          | none => existing
        let e2 := match is_admin with
          | some b => { e1 with isAdmin := b }
          | none => e1
        (.ok (entity_to_user username e2), areplace tbl username e2)

/-- Parsed JSON body of PUT /api/users/{username}. -/
structure UpdateBody where
  password : Option String
  isAdmin : Option Bool

/-- The `update_user` handler of function_app.py: username route parameter
check, JSON parsing, then the dispatcher-level rule that at least one of
password/isAdmin must be present — rejected with 400 BEFORE the store call.
The third component records whether the store operation was invoked. -/
def update_user_handler (conn : Option String) (tbl : UserTable)
    (username : Option String) (req : Option UpdateBody) :
    HttpResponse × UserTable × Bool :=
  if !truthy username then
    (⟨400, .failure "Username is required in the URL."⟩, tbl, false)
  else
    match req with
    | none => (⟨400, .failure "Request body must be valid JSON."⟩, tbl, false)
    | some data =>
        match data.password, data.isAdmin with
        | none, none =>
            (⟨400, .failure
               "At least one of 'password' or 'isAdmin' must be provided."⟩,
             tbl, false)
        | pw, adm =>
            let uname := username.getD ""
            match update_user conn tbl uname pw adm with
            | (.ok user, tbl1) =>
                (⟨200, .userBody user.username user.password user.isAdmin⟩,
                 tbl1, true)
            | (.error .notFound, tbl1) =>
                (⟨404, .failure ("User '" ++ uname ++ "' not found.")⟩, tbl1, true)
            | (.error (.valueError m), tbl1) =>
                (⟨500, .failure m⟩, tbl1, true)
            | (.error .alreadyExists, tbl1) =>
                (⟨500, .failure "Failed to update user: already exists"⟩, tbl1, true)
            | (.error (.otherError m), tbl1) =>
                (⟨500, .failure ("Failed to update user: " ++ m)⟩, tbl1, true)

-- ---------------------------------------------------------------------------
-- Theorems
-- ---------------------------------------------------------------------------

theorem alookup_append_of_none {β : Type} (l1 l2 : List (String × β)) (k : String)
    (h : alookup l1 k = none) : alookup (l1 ++ l2) k = alookup l2 k := by
  induction l1 with
  | nil => simp
  | cons p rest ih =>
    obtain ⟨k1, v1⟩ := p
    simp only [alookup] at h
    by_cases hk : k1 = k
    · rw [if_pos hk] at h
      exact absurd h (by simp)
    · rw [if_neg hk] at h
      rw [List.cons_append]
      simp only [alookup, if_neg hk]
      exact ih h

theorem alookup_none_not_mem {β : Type} (l : List (String × β)) (k : String)
    (h : alookup l k = none) : k ∉ l.map Prod.fst := by
  induction l with
  | nil => simp
  | cons p rest ih =>
    obtain ⟨k1, v1⟩ := p
    simp only [alookup] at h
    by_cases hk : k1 = k
    · rw [if_pos hk] at h
      exact absurd h (by simp)
    · rw [if_neg hk] at h
      simp only [List.map_cons, List.mem_cons]
      rintro (h1 | h1)
      · exact hk h1.symm
      · exact ih h h1

theorem alookup_some_mem {β : Type} (l : List (String × β)) (k : String)
    (h : alookup l k ≠ none) : k ∈ l.map Prod.fst := by
  induction l with
  | nil => exact absurd rfl h
  | cons p rest ih =>
    obtain ⟨k1, v1⟩ := p
    simp only [alookup] at h
    simp only [List.map_cons, List.mem_cons]
    by_cases hk : k1 = k
    · exact Or.inl hk.symm
    · rw [if_neg hk] at h
      exact Or.inr (ih h)

theorem areplace_keys {β : Type} (l : List (String × β)) (k : String) (v : β) :
    (areplace l k v).map Prod.fst = l.map Prod.fst := by
  induction l with
  | nil => rfl
  | cons p rest ih =>
    obtain ⟨k1, v1⟩ := p
    by_cases hk : k1 = k
    · simp [areplace, hk, ih]
    · simp [areplace, hk, ih]

theorem alookup_areplace_self {β : Type} (l : List (String × β)) (k : String)
    (v : β) (e : β) (h : alookup l k = some e) :
    alookup (areplace l k v) k = some v := by
  induction l with
  | nil => simp [alookup] at h
  | cons p rest ih =>
    obtain ⟨k1, v1⟩ := p
    simp only [alookup] at h
    by_cases hk : k1 = k
    · simp [areplace, hk, alookup]
    · rw [if_neg hk] at h
      simp only [areplace, if_neg hk, alookup]
      exact ih h

theorem get_provider_nodup_preserved (env : Env) (st : FactoryState) (name : String)
    (h : (st.cache.map Prod.fst).Nodup) :
    (((get_provider env st name).2).cache.map Prod.fst).Nodup := by
  unfold get_provider
  cases hc : alookup st.cache (normalizeName name) with
  | some i => dsimp only; exact h
  | none =>
    dsimp only
    cases hm : alookup providerMap (normalizeName name) with
    | none => dsimp only; exact h
    | some k =>
      dsimp only
      cases hcon : constructProvider env k st.nextId with
      | error e => dsimp only; exact h
      | ok i =>
        dsimp only
        have hnm := alookup_none_not_mem st.cache (normalizeName name) hc
        simp only [List.map_append, List.map_cons, List.map_nil]
        rw [List.nodup_append]
        refine ⟨h, List.nodup_singleton _, ?_⟩
        intro a ha hb
        simp only [List.mem_singleton] at hb
        exact hnm (hb ▸ ha)

theorem get_provider_cached_after_ok (env : Env) (st st1 : FactoryState)
    (name : String) (inst : ProviderInstance)
    (h1 : get_provider env st name = (.ok inst, st1)) :
    alookup st1.cache (normalizeName name) = some inst := by
  unfold get_provider at h1
  cases hc : alookup st.cache (normalizeName name) with
  | some i =>
    rw [hc] at h1
    dsimp only at h1
    simp only [Prod.mk.injEq, Except.ok.injEq] at h1
    rw [← h1.2, hc, h1.1]
  | none =>
    rw [hc] at h1
    dsimp only at h1
    cases hm : alookup providerMap (normalizeName name) with
    | none =>
      rw [hm] at h1
      dsimp only at h1
      simp at h1
    | some k =>
      rw [hm] at h1
      dsimp only at h1
      cases hcon : constructProvider env k st.nextId with
      | error e =>
        rw [hcon] at h1
        dsimp only at h1
        simp at h1
      | ok i =>
        rw [hcon] at h1
        dsimp only at h1
        simp only [Prod.mk.injEq, Except.ok.injEq] at h1
        rw [← h1.2]
        dsimp only
        rw [alookup_append_of_none _ _ _ hc]
        simp [alookup, h1.1]

/-- C1: `get_provider` is idempotent under provider-name normalization: after a
call that successfully returned instance `inst`, a second call with any
spelling normalizing to the same cache key returns the identical cached
instance (same object identity) and leaves the factory state unchanged; and
every `get_provider` step preserves the singleton-per-key cache invariant, so
at most one instance per normalized key is ever retained. -/
theorem get_provider_idempotent_singleton
    (env env2 : Env) (st st1 : FactoryState) (name1 name2 : String)
    (inst : ProviderInstance)
    (hnorm : normalizeName name1 = normalizeName name2)
    (h1 : get_provider env st name1 = (.ok inst, st1)) :
    get_provider env2 st1 name2 = (.ok inst, st1)
    ∧ ((st.cache.map Prod.fst).Nodup → (st1.cache.map Prod.fst).Nodup)
    ∧ (∀ env3 st3 name3, (st3.cache.map Prod.fst).Nodup →
        (((get_provider env3 st3 name3).2).cache.map Prod.fst).Nodup) := by
  have hcached := get_provider_cached_after_ok env st st1 name1 inst h1
  rw [hnorm] at hcached
  refine ⟨?_, ?_, ?_⟩
  · unfold get_provider
    rw [hcached]
  · intro h
    have hpres := get_provider_nodup_preserved env st name1 h
    rw [h1] at hpres
    exact hpres
  · intro env3 st3 name3 h
    exact get_provider_nodup_preserved env3 st3 name3 h

/-- C1 witness: concretely, calling the factory with "OpenAI" and then with
" openai " (with the OpenAI credential present) returns the identical instance
and the singleton invariant holds. -/
theorem get_provider_idempotent_singleton_witness :
    normalizeName "OpenAI" = normalizeName " openai "
    ∧ get_provider ⟨some "sk-test", none, none, none⟩ ⟨[], 0⟩ "OpenAI"
        = (.ok ⟨.openai, 0⟩, ⟨[("openai", ⟨.openai, 0⟩)], 1⟩)
    ∧ get_provider ⟨some "sk-test", none, none, none⟩
        ⟨[("openai", ⟨.openai, 0⟩)], 1⟩ " openai "
        = (.ok ⟨.openai, 0⟩, ⟨[("openai", ⟨.openai, 0⟩)], 1⟩) := by
  refine ⟨by rfl, by rfl, ?_⟩
  exact (get_provider_idempotent_singleton ⟨some "sk-test", none, none, none⟩
    ⟨some "sk-test", none, none, none⟩ ⟨[], 0⟩ ⟨[("openai", ⟨.openai, 0⟩)], 1⟩
    "OpenAI" " openai " ⟨.openai, 0⟩ (by rfl) (by rfl)).1

theorem strAppend_assoc (a b c : String) : a ++ b ++ c = a ++ (b ++ c) := by
  apply String.ext
  simp [String.data_append, List.append_assoc]

/-- C7: for a provider name whose normalized (trimmed, lowercased) form is not
one of the four supported keys, `get_provider` fails with a ValueError whose
message lists exactly the four supported names in source order, and no
instance is constructed or cached: the state is returned unchanged. The
hypothesis on `st` is the reachable-state invariant that the cache only holds
supported keys (only supported keys are ever inserted). -/
theorem get_provider_unknown_name (env : Env) (st : FactoryState) (name : String)
    (hsup : alookup providerMap (normalizeName name) = none)
    (hcache : ∀ k2, k2 ∈ st.cache.map Prod.fst → alookup providerMap k2 ≠ none) :
    get_provider env st name
      = (.error (.valueError (unknownProviderMsg name)), st)
    ∧ unknownProviderMsg name
      = "Unknown provider '" ++ name
          ++ "'. Supported providers: openai, azure openai, anthropic, aws bedrock" := by
  have hnone : alookup st.cache (normalizeName name) = none := by
    cases h2 : alookup st.cache (normalizeName name) with
    | none => rfl
    | some i =>
        exact absurd hsup
          (hcache (normalizeName name)
            (alookup_some_mem _ _ (by rw [h2]; exact Option.some_ne_none i)))
  constructor
  · unfold get_provider
    rw [hnone]
    dsimp only
    rw [hsup]
  · unfold unknownProviderMsg
    rw [strAppend_assoc]
    rfl

/-- C7 witness: the concrete unsupported name "unknown-vendor" on the empty
cache fails with the exact four-name message and an unchanged state. -/
theorem get_provider_unknown_name_witness :
    get_provider ⟨none, none, none, none⟩ ⟨[], 7⟩ "unknown-vendor"
      = (.error (.valueError (unknownProviderMsg "unknown-vendor")), ⟨[], 7⟩)
    ∧ unknownProviderMsg "unknown-vendor"
      = "Unknown provider 'unknown-vendor'. Supported providers: openai, azure openai, anthropic, aws bedrock" := by
  have h := get_provider_unknown_name ⟨none, none, none, none⟩ ⟨[], 7⟩
    "unknown-vendor" (by rfl) (by intro k2 hk2; simp at hk2)
  exact ⟨h.1, by rw [h.2]; rfl⟩

/-- C2 counterexample: a concrete chat request whose model resolves to the
OpenAI provider while OPENAI_API_KEY is absent. The handler catches the
construction ValueError and returns status 400 — not 500 as claimed. -/
theorem chat_missing_credential_counterexample :
    (chat [⟨some "gpt-4o-mini", "gpt-4o-mini", "OpenAI", none, none⟩]
        ⟨none, none, none, none⟩ ⟨[], 0⟩ (fun _ _ _ => .ok "ok")
        (some ⟨some "hi", some "gpt-4o-mini"⟩)).1
      = ⟨400, .failure "OPENAI_API_KEY environment variable is not set."⟩
    ∧ (chat [⟨some "gpt-4o-mini", "gpt-4o-mini", "OpenAI", none, none⟩]
        ⟨none, none, none, none⟩ ⟨[], 0⟩ (fun _ _ _ => .ok "ok")
        (some ⟨some "hi", some "gpt-4o-mini"⟩)).1.status ≠ 500 := by
  refine ⟨by rfl, ?_⟩
  intro hcontra
  have : (400 : Nat) = 500 := by
    calc (400 : Nat)
        = (chat [⟨some "gpt-4o-mini", "gpt-4o-mini", "OpenAI", none, none⟩]
            ⟨none, none, none, none⟩ ⟨[], 0⟩ (fun _ _ _ => .ok "ok")
            (some ⟨some "hi", some "gpt-4o-mini"⟩)).1.status := by rfl
      _ = 500 := hcontra
  simp at this

/-- C2 (amended): when the chat request's model resolves to a provider whose
adapter construction fails with a missing-credential ValueError, POST
/api/chat surfaces it as status 400 (the handler's `except ValueError` arm),
with a body carrying one of the four fixed credential messages — a constant
string naming only the environment variable, never a secret value. -/
theorem chat_missing_credential_400
    (registry : List ModelConfig) (env : Env) (st : FactoryState)
    (genText : ProviderInstance → String → ℚ → Except PyError String)
    (body : ChatBody) (cfg : ModelConfig) (k : ProviderKind) (m : String)
    (hp : truthy body.prompt = true) (hmid : truthy body.modelId = true)
    (hfind : find_model_by_id registry (body.modelId.getD "") = some cfg)
    (hmiss : alookup st.cache (normalizeName cfg.providerName) = none)
    (hmap : alookup providerMap (normalizeName cfg.providerName) = some k)
    (hcon : constructProvider env k st.nextId = .error (.valueError m)) :
    chat registry env st genText (some body) = (⟨400, .failure m⟩, st, [.factoryCall])
    ∧ (m = "OPENAI_API_KEY environment variable is not set."
       ∨ m = "AZURE_OPENAI_API_KEY environment variable is not set."
       ∨ m = "AZURE_OPENAI_ENDPOINT environment variable is not set."
       ∨ m = "ANTHROPIC_API_KEY environment variable is not set.") := by
  have hgp : get_provider env st cfg.providerName = (.error (.valueError m), st) := by
    unfold get_provider
    rw [hmiss]
    dsimp only
    rw [hmap]
    dsimp only
    rw [hcon]
  constructor
  · simp only [chat, hp, hmid, Bool.not_true, Bool.false_eq_true, if_false]
    rw [hfind]
    dsimp only
    rw [hgp]
  · cases k with
    | openai =>
        unfold constructProvider at hcon
        by_cases ho : truthy env.openaiKey = true
        · rw [if_pos ho] at hcon; simp at hcon
        · rw [if_neg ho] at hcon
          simp only [Except.error.injEq, PyError.valueError.injEq] at hcon
          exact Or.inl hcon.symm
    | azureOpenai =>
        unfold constructProvider at hcon
        by_cases ha : truthy env.azureOpenaiKey = true
        · rw [if_pos ha] at hcon
          by_cases he : truthy env.azureOpenaiEndpoint = true
          · rw [if_pos he] at hcon; simp at hcon
          · rw [if_neg he] at hcon
            simp only [Except.error.injEq, PyError.valueError.injEq] at hcon
            exact Or.inr (Or.inr (Or.inl hcon.symm))
        · rw [if_neg ha] at hcon
          simp only [Except.error.injEq, PyError.valueError.injEq] at hcon
          exact Or.inr (Or.inl hcon.symm)
    | anthropic =>
        unfold constructProvider at hcon
        by_cases hn : truthy env.anthropicKey = true
        · rw [if_pos hn] at hcon; simp at hcon
        · rw [if_neg hn] at hcon
          simp only [Except.error.injEq, PyError.valueError.injEq] at hcon
          exact Or.inr (Or.inr (Or.inr hcon.symm))
    | awsBedrock =>
        unfold constructProvider at hcon
        simp at hcon

/-- C2 witness: the amended statement applied at the concrete OpenAI request
and empty environment of the counterexample. -/
theorem chat_missing_credential_400_witness :
    chat [⟨some "gpt-4o-mini", "gpt-4o-mini", "OpenAI", none, none⟩]
        ⟨none, none, none, none⟩ ⟨[], 0⟩ (fun _ _ _ => .ok "ok")
        (some ⟨some "hi", some "gpt-4o-mini"⟩)
      = (⟨400, .failure "OPENAI_API_KEY environment variable is not set."⟩,
         ⟨[], 0⟩, [.factoryCall]) :=
  (chat_missing_credential_400
    [⟨some "gpt-4o-mini", "gpt-4o-mini", "OpenAI", none, none⟩]
    ⟨none, none, none, none⟩ ⟨[], 0⟩ (fun _ _ _ => .ok "ok")
    ⟨some "hi", some "gpt-4o-mini"⟩
    ⟨some "gpt-4o-mini", "gpt-4o-mini", "OpenAI", none, none⟩
    .openai "OPENAI_API_KEY environment variable is not set."
    (by rfl) (by rfl) (by rfl) (by rfl) (by rfl) (by rfl)).1

/-- C3: for every vision request whose resolved model descriptor has
supportsVision=false (or unset, which `model_config.get("supportsVision",
False)` reads as false), the dispatcher answers 400, the event trace is empty
(neither the provider factory nor any adapter generate_with_image operation
is invoked) and the factory state is untouched. -/
theorem chat_vision_no_adapter_call
    (registry : List ModelConfig) (env : Env) (st : FactoryState)
    (genVision : ProviderInstance → String → String → String → ℚ → String →
      Except PyError String)
    (body : VisionBody) (mid : String) (cfg : ModelConfig)
    (hb : body.modelId = some mid)
    (hfind : find_model_by_id registry mid = some cfg)
    (hv : cfg.supportsVision.getD false = false) :
    (chat_vision registry env st genVision (some body)).1.status = 400
    ∧ (chat_vision registry env st genVision (some body)).2.2 = []
    ∧ (chat_vision registry env st genVision (some body)).2.1 = st := by
  cases hp : truthy body.prompt with
  | false => simp [chat_vision, hp]
  | true =>
    cases hic : truthy body.imageContent with
    | false => simp [chat_vision, hp, hic]
    | true =>
      cases hmid2 : truthy body.modelId with
      | false => simp [chat_vision, hp, hic, hmid2]
      | true =>
        simp only [chat_vision, hp, hic, hmid2, Bool.not_true, Bool.false_eq_true,
          if_false]
        rw [hb]
        simp only [Option.getD_some]
        rw [hfind]
        dsimp only
        rw [hv]
        simp

/-- C3 witness: a concrete vision request against a registry model with
supportsVision=false yields 400, an empty trace, and an unchanged state. -/
theorem chat_vision_no_adapter_call_witness :
    ((chat_vision [⟨some "llama", "meta.llama3-70b", "AWS Bedrock", none, some false⟩]
        ⟨none, none, none, none⟩ ⟨[], 0⟩ (fun _ _ _ _ _ _ => .ok "ok")
        (some ⟨some "hi", some "QUFB", some "llama", none⟩)).1.status = 400)
    ∧ ((chat_vision [⟨some "llama", "meta.llama3-70b", "AWS Bedrock", none, some false⟩]
        ⟨none, none, none, none⟩ ⟨[], 0⟩ (fun _ _ _ _ _ _ => .ok "ok")
        (some ⟨some "hi", some "QUFB", some "llama", none⟩)).2.2 = [])
    ∧ ((chat_vision [⟨some "llama", "meta.llama3-70b", "AWS Bedrock", none, some false⟩]
        ⟨none, none, none, none⟩ ⟨[], 0⟩ (fun _ _ _ _ _ _ => .ok "ok")
        (some ⟨some "hi", some "QUFB", some "llama", none⟩)).2.1 = ⟨[], 0⟩) :=
  chat_vision_no_adapter_call
    [⟨some "llama", "meta.llama3-70b", "AWS Bedrock", none, some false⟩]
    ⟨none, none, none, none⟩ ⟨[], 0⟩ (fun _ _ _ _ _ _ => .ok "ok")
    ⟨some "hi", some "QUFB", some "llama", none⟩ "llama"
    ⟨some "llama", "meta.llama3-70b", "AWS Bedrock", none, some false⟩
    (by rfl) (by rfl) (by rfl)

/-- C4: the Bedrock adapter rejects a vision call with its own ValueError
exactly when the vendor model identifier is prefixed "meta.", before decoding
and before any Converse call, for every base64 decoder, prompt, image,
temperature and media type; identifiers without that marker never trigger
this rejection. -/
theorem bedrock_meta_vision_rejection
    (b64decode : String → Option (List Nat))
    (prompt image_content model_name : String) (temperature : ℚ)
    (mt : Option String) :
    (BedrockProvider._is_meta_model model_name = true →
      BedrockProvider.generate_with_image b64decode prompt image_content
          model_name temperature mt
        = .metaRejected ("Model '" ++ model_name
            ++ "' does not support image/vision input."))
    ∧ (BedrockProvider._is_meta_model model_name = false →
      ∀ m, BedrockProvider.generate_with_image b64decode prompt image_content
          model_name temperature mt ≠ .metaRejected m) := by
  constructor
  · intro hmeta
    unfold BedrockProvider.generate_with_image
    rw [hmeta]
    simp
  · intro hnot m
    unfold BedrockProvider.generate_with_image
    rw [hnot]
    simp only [Bool.false_eq_true, if_false]
    cases hdec : b64decode image_content with
    | none => simp
    | some bs => simp

/-- C4 witness: the Meta-family identifier "meta.llama3-2-90b-instruct-v1:0"
is rejected with the adapter's exact ValueError message, while the Anthropic
family identifier is not rejected. -/
theorem bedrock_meta_vision_rejection_witness :
    BedrockProvider._is_meta_model "meta.llama3-2-90b-instruct-v1:0" = true
    ∧ BedrockProvider.generate_with_image (fun _ => some []) "hi" "QUFB"
        "meta.llama3-2-90b-instruct-v1:0" 1 none
      = .metaRejected
          "Model 'meta.llama3-2-90b-instruct-v1:0' does not support image/vision input."
    ∧ BedrockProvider._is_meta_model "anthropic.claude-3-5-sonnet-20241022-v2:0" = false
    ∧ BedrockProvider.generate_with_image (fun _ => some []) "hi" "QUFB"
        "anthropic.claude-3-5-sonnet-20241022-v2:0" 1 none
      ≠ .metaRejected
          "Model 'anthropic.claude-3-5-sonnet-20241022-v2:0' does not support image/vision input." := by
  refine ⟨by rfl, ?_, by rfl, ?_⟩
  · have h := (bedrock_meta_vision_rejection (fun _ => some []) "hi" "QUFB"
      "meta.llama3-2-90b-instruct-v1:0" 1 none).1 (by rfl)
    rw [h]
    rfl
  · exact (bedrock_meta_vision_rejection (fun _ => some []) "hi" "QUFB"
      "anthropic.claude-3-5-sonnet-20241022-v2:0" 1 none).2 (by rfl) _

theorem startsWithChars_of_append (l p q : List Char)
    (h : startsWithChars l (p ++ q) = true) : startsWithChars l p = true := by
  induction p generalizing l with
  | nil =>
    cases l with
    | nil => rfl
    | cons a as => rfl
  | cons c ps ih =>
    cases l with
    | nil => simp [startsWithChars] at h
    | cons a as =>
      simp only [List.cons_append, startsWithChars, Bool.and_eq_true] at h ⊢
      exact ⟨h.1, ih as h.2⟩

/-- C5 counterexample: the string "httpAAAA" starts with neither "http://"
nor "https://", so per the claim it should be treated as base64 payload and
wrapped as a data URI — but the adapters branch on the bare marker "http",
so it is passed through as a URL reference instead. -/
theorem image_source_prefix_counterexample :
    pyStartsWith "httpAAAA" "http://" = false
    ∧ pyStartsWith "httpAAAA" "https://" = false
    ∧ (OpenAIProvider.generate_with_image "hi" "httpAAAA" "gpt-4o" 1 none).parts
        = [.text "hi", .imageUrl "httpAAAA"]
    ∧ (OpenAIProvider.generate_with_image "hi" "httpAAAA" "gpt-4o" 1 none).parts
        ≠ [.text "hi", .imageUrl "data:image/png;base64,httpAAAA"] := by
  refine ⟨by rfl, by rfl, by rfl, by decide⟩

/-- C5 (amended): every URL-capable adapter branches on the bare marker
"http": content starting with "http" (which covers everything starting with
"http://" or "https://", but also strings like "httpAAAA") goes out as a URL
reference; all other content is treated as base64 — the OpenAI-style adapters
wrap it as the data URI data:mediaType;base64,content and the Anthropic
adapter as a base64 source block, with media type defaulting to image/png
when omitted. -/
theorem image_source_disambiguation (prompt img mn : String) (t : ℚ)
    (mt : Option String) :
    (pyStartsWith img "http" = true →
      OpenAIProvider.generate_with_image prompt img mn t mt
        = ⟨mn, [.text prompt, .imageUrl img], t⟩
      ∧ AzureOpenAIProvider.generate_with_image prompt img mn t mt
        = ⟨mn, [.text prompt, .imageUrl img], t⟩
      ∧ AnthropicProvider.generate_with_image prompt img mn t mt
        = ⟨mn, 4096, t, [.image (.url img), .text prompt]⟩)
    ∧ (pyStartsWith img "http" = false →
      OpenAIProvider.generate_with_image prompt img mn t mt
        = ⟨mn, [.text prompt,
            .imageUrl ("data:" ++ orDefault mt "image/png" ++ ";base64," ++ img)], t⟩
      ∧ AzureOpenAIProvider.generate_with_image prompt img mn t mt
        = ⟨mn, [.text prompt,
            .imageUrl ("data:" ++ orDefault mt "image/png" ++ ";base64," ++ img)], t⟩
      ∧ AnthropicProvider.generate_with_image prompt img mn t mt
        = ⟨mn, 4096, t,
            [.image (.base64Src (orDefault mt "image/png") img), .text prompt]⟩)
    ∧ orDefault none "image/png" = "image/png"
    ∧ (pyStartsWith img "http://" = true → pyStartsWith img "http" = true)
    ∧ (pyStartsWith img "https://" = true → pyStartsWith img "http" = true) := by
  refine ⟨?_, ?_, by rfl, ?_, ?_⟩
  · intro h
    refine ⟨?_, ?_, ?_⟩
    · unfold OpenAIProvider.generate_with_image
      rw [h]
      simp
    · unfold AzureOpenAIProvider.generate_with_image
      rw [h]
      simp
    · unfold AnthropicProvider.generate_with_image
      rw [h]
      simp
  · intro h
    refine ⟨?_, ?_, ?_⟩
    · unfold OpenAIProvider.generate_with_image
      rw [h]
      simp
    · unfold AzureOpenAIProvider.generate_with_image
      rw [h]
      simp
    · unfold AnthropicProvider.generate_with_image
      rw [h]
      simp
  · intro h
    have hdata : ("http://").data = ("http").data ++ ("://").data := by rfl
    unfold pyStartsWith at h ⊢
    rw [hdata] at h
    exact startsWithChars_of_append _ _ _ h
  · intro h
    have hdata : ("https://").data = ("http").data ++ ("s://").data := by rfl
    unfold pyStartsWith at h ⊢
    rw [hdata] at h
    exact startsWithChars_of_append _ _ _ h

/-- C5 witness: the amended disambiguation at a URL image and at a base64
image with no media type. -/
theorem image_source_disambiguation_witness :
    OpenAIProvider.generate_with_image "hi" "https://x.test/cat.png" "gpt-4o" 1 none
      = ⟨"gpt-4o", [.text "hi", .imageUrl "https://x.test/cat.png"], 1⟩
    ∧ AnthropicProvider.generate_with_image "hi" "QUFB" "claude-3" 1 none
      = ⟨"claude-3", 4096, 1, [.image (.base64Src "image/png" "QUFB"), .text "hi"]⟩ :=
  ⟨((image_source_disambiguation "hi" "https://x.test/cat.png" "gpt-4o" 1 none).1
      (by rfl)).1,
   (((image_source_disambiguation "hi" "QUFB" "claude-3" 1 none).2.1
      (by rfl)).2.2).trans (by rw [show orDefault none "image/png" = "image/png" from rfl])⟩

/-- C6: on first registry access (both caches empty), a missing configuration
file makes get_all_models and get_model_by_id fail with the propagated
FileNotFoundError, and a malformed file (json.load returns no document) makes
them fail with the propagated JSONDecodeError — the error identifies the
underlying IO/parse cause and the registry never silently answers with an
empty (or any) model list in either case. -/
theorem config_first_access_failure (parse : String → Option FullConfig)
    (mid : String) :
    (config_loader.get_all_models parse .missing ⟨none, none⟩).1
      = .error .fileNotFound
    ∧ (config_loader.get_model_by_id parse .missing ⟨none, none⟩ mid).1
      = .error .fileNotFound
    ∧ (∀ raw, parse raw = none →
        (config_loader.get_all_models parse (.content raw) ⟨none, none⟩).1
          = .error .jsonDecodeError
        ∧ (config_loader.get_model_by_id parse (.content raw) ⟨none, none⟩ mid).1
          = .error .jsonDecodeError)
    ∧ (∀ ms, (config_loader.get_all_models parse .missing ⟨none, none⟩).1 ≠ .ok ms)
    ∧ (∀ raw, parse raw = none → ∀ ms,
        (config_loader.get_all_models parse (.content raw) ⟨none, none⟩).1 ≠ .ok ms) := by
  have hmiss : (config_loader.get_all_models parse .missing ⟨none, none⟩).1
      = .error .fileNotFound := by
    unfold config_loader.get_all_models load_models load_full_config
    rfl
  have hmal : ∀ raw, parse raw = none →
      (config_loader.get_all_models parse (.content raw) ⟨none, none⟩).1
        = .error .jsonDecodeError := by
    intro raw hraw
    unfold config_loader.get_all_models load_models load_full_config
    dsimp only
    rw [hraw]
  refine ⟨hmiss, ?_, ?_, ?_, ?_⟩
  · unfold config_loader.get_model_by_id load_models load_full_config
    rfl
  · intro raw hraw
    refine ⟨hmal raw hraw, ?_⟩
    unfold config_loader.get_model_by_id load_models load_full_config
    dsimp only
    rw [hraw]
  · intro ms hcontra
    rw [hmiss] at hcontra
    exact Except.noConfusion hcontra
  · intro raw hraw ms hcontra
    rw [hmal raw hraw] at hcontra
    exact Except.noConfusion hcontra

/-- C6 witness: with a parser that rejects the document "not json" and a
missing file, both first accesses fail with the matching causes and never
return an empty model list. -/
theorem config_first_access_failure_witness :
    (config_loader.get_all_models (fun _ => none) .missing ⟨none, none⟩).1
      = .error .fileNotFound
    ∧ (config_loader.get_all_models (fun _ => none) (.content "not json")
        ⟨none, none⟩).1 = .error .jsonDecodeError
    ∧ (config_loader.get_all_models (fun _ => none) (.content "not json")
        ⟨none, none⟩).1 ≠ .ok [] := by
  have h := config_first_access_failure (fun _ => none) "gpt-4o"
  exact ⟨h.1, (h.2.2.1 "not json" rfl).1, h.2.2.2.2 "not json" rfl []⟩

/-- C8: with a configured connection string, validate_user returns the stored
record exactly when the username exists and the stored password equals the
supplied password character for character; a wrong password or a missing user
yields the explicit invalid signal (ok none); and the call never raises — an
error (ValueError) occurs only when the connection string is absent
(infrastructure failure). -/
theorem validate_user_exact_match (conn : Option String) (tbl : UserTable)
    (u p : String) (hconn : truthy conn = true) :
    (∀ e, alookup tbl u = some e → e.password = p →
        validate_user conn tbl u p = .ok (some ⟨u, e.password, e.isAdmin⟩))
    ∧ (∀ e, alookup tbl u = some e → e.password ≠ p →
        validate_user conn tbl u p = .ok none)
    ∧ (alookup tbl u = none → validate_user conn tbl u p = .ok none)
    ∧ (∃ r, validate_user conn tbl u p = .ok r)
    ∧ (∀ conn2, truthy conn2 = false →
        validate_user conn2 tbl u p = .error (.valueError connStringMsg)) := by
  have hbase : validate_user conn tbl u p
      = match alookup tbl u with
        | none => .ok none
        | some entity =>
            if entity.password = p then .ok (some (entity_to_user u entity))
            else .ok none := by
    unfold validate_user
    rw [hconn]
    rfl
  refine ⟨?_, ?_, ?_, ?_, ?_⟩
  · intro e he hpw
    rw [hbase, he]
    dsimp only
    rw [if_pos hpw]
    rfl
  · intro e he hpw
    rw [hbase, he]
    dsimp only
    rw [if_neg hpw]
  · intro he
    rw [hbase, he]
  · rw [hbase]
    cases he : alookup tbl u with
    | none => exact ⟨none, rfl⟩
    | some e =>
        dsimp only
        by_cases hpw : e.password = p
        · rw [if_pos hpw]; exact ⟨_, rfl⟩
        · rw [if_neg hpw]; exact ⟨none, rfl⟩
  · intro conn2 hconn2
    unfold validate_user
    rw [hconn2]
    rfl

/-- C8 witness: after storing alice with password "cGFzcw==", validation with
the exact password returns the record, with "wrong" returns the invalid
signal, and neither call raises. -/
theorem validate_user_exact_match_witness :
    validate_user (some "cs") [("alice", ⟨"cGFzcw==", false⟩)] "alice" "cGFzcw=="
      = .ok (some ⟨"alice", "cGFzcw==", false⟩)
    ∧ validate_user (some "cs") [("alice", ⟨"cGFzcw==", false⟩)] "alice" "wrong"
      = .ok none := by
  constructor
  · exact (validate_user_exact_match (some "cs") [("alice", ⟨"cGFzcw==", false⟩)]
      "alice" "cGFzcw==" (by rfl)).1 ⟨"cGFzcw==", false⟩ (by rfl) (by rfl)
  · exact (validate_user_exact_match (some "cs") [("alice", ⟨"cGFzcw==", false⟩)]
      "alice" "wrong" (by rfl)).2.1 ⟨"cGFzcw==", false⟩ (by rfl) (by decide)

/-- C10: the store-level validate_user collapses both failure causes to the
same invalid signal: an existing user with a wrong password and a nonexistent
user both yield ok none, so the caller cannot distinguish them from the
return value. -/
theorem validate_user_indistinguishable (conn : Option String) (tbl : UserTable)
    (u1 p1 u2 p2 : String) (e : UserEntity)
    (hconn : truthy conn = true)
    (h1 : alookup tbl u1 = some e) (hwrong : e.password ≠ p1)
    (h2 : alookup tbl u2 = none) :
    validate_user conn tbl u1 p1 = .ok none
    ∧ validate_user conn tbl u2 p2 = .ok none
    ∧ validate_user conn tbl u1 p1 = validate_user conn tbl u2 p2 := by
  have hbase1 : validate_user conn tbl u1 p1
      = match alookup tbl u1 with
        | none => .ok none
        | some entity =>
            if entity.password = p1 then .ok (some (entity_to_user u1 entity))
            else .ok none := by
    unfold validate_user
    rw [hconn]
    rfl
  have hbase2 : validate_user conn tbl u2 p2
      = match alookup tbl u2 with
        | none => .ok none
        | some entity =>
            if entity.password = p2 then .ok (some (entity_to_user u2 entity))
            else .ok none := by
    unfold validate_user
    rw [hconn]
    rfl
  have ha : validate_user conn tbl u1 p1 = .ok none := by
    rw [hbase1, h1]
    dsimp only
    rw [if_neg hwrong]
  have hb : validate_user conn tbl u2 p2 = .ok none := by
    rw [hbase2, h2]
  exact ⟨ha, hb, ha.trans hb.symm⟩

/-- C10 witness: wrong password for alice and unknown user bob produce the
identical return value. -/
theorem validate_user_indistinguishable_witness :
    validate_user (some "cs") [("alice", ⟨"cGFzcw==", false⟩)] "alice" "nope"
      = .ok none
    ∧ validate_user (some "cs") [("alice", ⟨"cGFzcw==", false⟩)] "bob" "cGFzcw=="
      = .ok none
    ∧ validate_user (some "cs") [("alice", ⟨"cGFzcw==", false⟩)] "alice" "nope"
      = validate_user (some "cs") [("alice", ⟨"cGFzcw==", false⟩)] "bob" "cGFzcw==" :=
  validate_user_indistinguishable (some "cs") [("alice", ⟨"cGFzcw==", false⟩)]
    "alice" "nope" "bob" "cGFzcw==" ⟨"cGFzcw==", false⟩
    (by rfl) (by rfl) (by decide) (by rfl)

/-- C9: update_user is a partial update touching only supplied fields: with
password=None the stored password is unchanged, with is_admin=None the admin
flag is unchanged, the username key set of the table is never changed, a
nonexistent username fails with NotFound leaving the table untouched, and the
dispatcher rejects with 400 any update with both fields absent before the
store operation is invoked. -/
theorem update_user_partial_frame (conn : Option String) (tbl : UserTable)
    (u : String) (hconn : truthy conn = true) :
    (∀ e b, alookup tbl u = some e →
        update_user conn tbl u none (some b)
          = (.ok ⟨u, e.password, b⟩, areplace tbl u ⟨e.password, b⟩)
        ∧ alookup (areplace tbl u ⟨e.password, b⟩) u = some ⟨e.password, b⟩
        ∧ (areplace tbl u ⟨e.password, b⟩).map Prod.fst = tbl.map Prod.fst)
    ∧ (∀ e pw, alookup tbl u = some e →
        update_user conn tbl u (some pw) none
          = (.ok ⟨u, pw, e.isAdmin⟩, areplace tbl u ⟨pw, e.isAdmin⟩)
        ∧ alookup (areplace tbl u ⟨pw, e.isAdmin⟩) u = some ⟨pw, e.isAdmin⟩
        ∧ (areplace tbl u ⟨pw, e.isAdmin⟩).map Prod.fst = tbl.map Prod.fst)
    ∧ (alookup tbl u = none → ∀ pw adm,
        update_user conn tbl u pw adm = (.error .notFound, tbl))
    ∧ (∀ conn2 (tbl2 : UserTable) uname, truthy (some uname) = true →
        update_user_handler conn2 tbl2 (some uname) (some ⟨none, none⟩)
          = (⟨400, .failure
               "At least one of 'password' or 'isAdmin' must be provided."⟩,
             tbl2, false)) := by
  have hbase : ∀ pw adm, update_user conn tbl u pw adm
      = match alookup tbl u with
        | none => (.error .notFound, tbl)
        | some existing =>
            let e1 := match pw with
              | some p2 => { existing with password := p2 }
              | none => existing
            let e2 := match adm with
              | some b => { e1 with isAdmin := b }
              | none => e1
            (.ok (entity_to_user u e2), areplace tbl u e2) := by
    intro pw adm
    unfold update_user
    rw [hconn]
    rfl
  refine ⟨?_, ?_, ?_, ?_⟩
  · intro e b he
    refine ⟨?_, ?_, areplace_keys tbl u ⟨e.password, b⟩⟩
    · rw [hbase none (some b), he]
      rfl
    · exact alookup_areplace_self tbl u ⟨e.password, b⟩ e he
  · intro e pw he
    refine ⟨?_, ?_, areplace_keys tbl u ⟨pw, e.isAdmin⟩⟩
    · rw [hbase (some pw) none, he]
      rfl
    · exact alookup_areplace_self tbl u ⟨pw, e.isAdmin⟩ e he
  · intro he pw adm
    rw [hbase pw adm, he]
  · intro conn2 tbl2 uname htu
    unfold update_user_handler
    rw [htu]
    rfl

/-- C9 witness: updating alice's admin flag alone keeps her password, a
nonexistent user fails with NotFound on an unchanged table, and the
double-None update is rejected with 400 without touching the store. -/
theorem update_user_partial_frame_witness :
    update_user (some "cs") [("alice", ⟨"cGFzcw==", false⟩)] "alice" none (some true)
      = (.ok ⟨"alice", "cGFzcw==", true⟩, [("alice", ⟨"cGFzcw==", true⟩)])
    ∧ update_user (some "cs") [("alice", ⟨"cGFzcw==", false⟩)] "ghost" none (some true)
      = (.error .notFound, [("alice", ⟨"cGFzcw==", false⟩)])
    ∧ update_user_handler (some "cs") [("alice", ⟨"cGFzcw==", false⟩)]
        (some "alice") (some ⟨none, none⟩)
      = (⟨400, .failure "At least one of 'password' or 'isAdmin' must be provided."⟩,
         [("alice", ⟨"cGFzcw==", false⟩)], false) := by
  have h := update_user_partial_frame (some "cs") [("alice", ⟨"cGFzcw==", false⟩)]
    "alice" (by rfl)
  have h2 := update_user_partial_frame (some "cs") [("alice", ⟨"cGFzcw==", false⟩)]
    "ghost" (by rfl)
  refine ⟨?_, ?_, ?_⟩
  · exact (h.1 ⟨"cGFzcw==", false⟩ true (by rfl)).1
  · exact h2.2.2.1 (by rfl) none (some true)
  · exact h.2.2.2 (some "cs") [("alice", ⟨"cGFzcw==", false⟩)] "alice" (by rfl)
